import Mathlib

/-!
Shallow embedding of the SWIM failure-detector skeleton in src/swim.go
(package swim of the repository). Go methods on the SWIM struct become
functions over an explicit state record; Go panics and runtime faults
become Except.error; observable calls to collaborators (transport Send,
MemberMap mutation, piggyback-store Push) become an explicit effect list.
Components whose source is not in the repository snapshot (PriorityPBStore,
MemberMap internals) are modelled from the design document and marked so.
-/

namespace Swim

/-- Member status, per the data model: Alive, Suspect, or Dead. -/
inductive Status where
  | Alive
  | Suspect
  | Dead
deriving DecidableEq, Repr

/-- A known peer: address used as key, plus its current status. The
Member type is used by swim.go through its Status field. -/
structure Member where
  addr : String
  status : Status
deriving DecidableEq, Repr

/-- PiggyBack record type, from pb.PiggyBack_Type: Alive, Suspect, Confirm. -/
inductive PiggyBackType where
  | Alive
  | Suspect
  | Confirm
deriving DecidableEq, Repr

/-- A disseminated state-change record (pb.PiggyBack): type, subject member
address, incarnation. -/
structure PiggyBack where
  type : PiggyBackType
  member : String
  incarnation : Nat
deriving DecidableEq, Repr

/-- The Go zero value of pb.PiggyBack: first enum value, empty string,
zero incarnation. pingHandler falls back to it when the store Get fails. -/
def pbZero : PiggyBack :=
  { type := PiggyBackType.Alive, member := "", incarnation := 0 }

/-- The oneof payload of pb.Message: Ping, Ack with a string payload,
IndirectPing, or an unrecognized payload (the default case of the type
switch in handle). -/
inductive Payload where
  | ping
  | ack (payload : String)
  | indirectPing
  | unknown
deriving DecidableEq, Repr

/-- The wire message (pb.Message): correlation id, sender address, payload,
and an optional piggyback record. The Go field is a pointer *pb.PiggyBack;
none models the nil pointer. -/
structure Message where
  id : String
  address : String
  payload : Payload
  piggyBack : Option PiggyBack
deriving DecidableEq, Repr

/-- The configuration struct of swim.go, field names as in the source. -/
structure Config where
  MaxlocalCount : Int
  T : Int
  AckTimeOut : Int
  K : Int
  BindAddress : String
  BindPort : Int
deriving DecidableEq, Repr

/-- An entry of the priority piggyback store: a record together with its
remaining-replay counter. -/
structure StoreEntry where
  record : PiggyBack
  remaining : Nat
deriving DecidableEq, Repr

/-- The state of the SWIM struct that the embedded operations read or
write: the configuration, the member map (as the list of members a
GetMembers snapshot returns), the priority piggyback store, and the
piggyback store that handlePbk pushes into. -/
structure SWIMState where
  config : Config
  memberMap : List Member
  priorityPBStore : List StoreEntry
  pbkStore : List PiggyBack
deriving DecidableEq, Repr

/-- Observable calls the embedded code makes on its collaborators:
a transport send, a MarkSuspect call on the member registry, and a Push
into a piggyback store. An operation returning an empty effect list made
no such call. -/
inductive Effect where
  | send (dest : String) (msg : Message)
  | markSuspect (addr : String)
  | pushPiggyBack (record : PiggyBack)
deriving DecidableEq, Repr

/-- Conversion string(i) of Go on an integer value: the UTF-8 string of
the Unicode code point with that value, or the replacement character
U+FFFD for values outside the valid code-point range (including the
surrogate range, which UTF-8 encoding maps to the replacement character).
This is what `s.config.BindAddress + ":" + string(s.config.BindPort)` in
pingHandler uses on the port. -/
def goStringOfInt (i : Int) : String :=
  if (0 ≤ i ∧ i < 0xd800) ∨ (0xe000 ≤ i ∧ i < 0x110000) then
    String.singleton (Char.ofNat i.toNat)
  else
    String.singleton (Char.ofNat 0xfffd)

/-- The from-address pingHandler builds:
`Address := s.config.BindAddress + ":" + string(s.config.BindPort)`. -/
def pingHandlerAddress (config : Config) : String :=
  config.BindAddress ++ ":" ++ goStringOfInt config.BindPort

/-- The local identity in the form the design document describes:
host:port with the port rendered as its decimal text. -/
def specLocalIdentity (config : Config) : String :=
  config.BindAddress ++ ":" ++ toString config.BindPort

/-- New from swim.go: panics (modelled as Except.error) when
`config.T < config.AckTimeOut`, otherwise builds the SWIM struct with a
fresh member map and stores. The message-endpoint wiring is external
collaborator construction and carries no state the claims touch. -/
def New (config : Config) : Except String SWIMState :=
  if config.T < config.AckTimeOut then
    Except.error "T time must be longer than ack time-out"
  else
    Except.ok { config := config, memberMap := [], priorityPBStore := [],
                pbkStore := [] }

/-- probe from swim.go. The body: return at once when the member status is
Dead; otherwise race a goroutine (which only sleeps and signals end — the
ping send is a stub) against a timer of T milliseconds. `timerFirst`
records which select branch wins: true is the `<-T.C` branch (the outer
timer fired with no Ack), false is the `<-end` branch. Both branches
return having made no transport call and no registry call, so both yield
an empty effect list; in particular the `<-T.C` branch carries only the
comment about suspecting the member and returns. -/
def probe (member : Member) (timerFirst : Bool) : List Effect :=
  if member.status = Status.Dead then
    []
  else if timerFirst then
    []
  else
    []

/-- Join from swim.go: the body is `return nil`. No exchange with any
peer address is attempted and the nil error (none) is always returned. -/
def Join (peerAddresses : List String) : Option String :=
  none

/-- Get on the priority piggyback store. Modelled from the spec: the
PriorityPBStore source is not in the repository snapshot; the design
document specifies that Get returns the highest-priority pending record
(most recently pushed first), decrements its remaining-replay counter,
evicts it when the counter reaches zero, and fails with the EmptyStore
condition when no record is pending. -/
def priorityPBStoreGet : List StoreEntry → Except String (PiggyBack × List StoreEntry)
  | [] => Except.error "EmptyStore"
  | e :: rest =>
      if e.remaining ≤ 1 then
        Except.ok (e.record, rest)
      else
        Except.ok (e.record, { e with remaining := e.remaining - 1 } :: rest)

/-- The record pingHandler ends up attaching to the Ack: the Get result,
or the Go zero value of pb.PiggyBack when Get fails (the source only logs
the error and keeps the zero-valued local variable). -/
def nextStoreRecord (store : List StoreEntry) : PiggyBack :=
  match priorityPBStoreGet store with
  | Except.error _ => pbZero
  | Except.ok r => r.1

/-- The priority store state after the Get call in pingHandler: unchanged
when Get fails, otherwise the store Get returns. -/
def storeAfterGet (store : List StoreEntry) : List StoreEntry :=
  match priorityPBStoreGet store with
  | Except.error _ => store
  | Except.ok r => r.2

/-- pingHandler from swim.go: build the from-address from BindAddress and
`string(BindPort)`, call Get on the priority store (an error is only
logged; the zero-valued record is then used), and send one message back
to msg.Address carrying the same id, an Ack payload with an empty string,
and a pointer to the obtained record. -/
def pingHandler (s : SWIMState) (msg : Message) : SWIMState × List Effect :=
  let Address := pingHandlerAddress s.config
  let (piggyBack, store) :=
    match priorityPBStoreGet s.priorityPBStore with
    | Except.error _ => (pbZero, s.priorityPBStore)
    | Except.ok r => r
  ({ s with priorityPBStore := store },
   [Effect.send msg.address
     { id := msg.id, address := Address, payload := Payload.ack "",
       piggyBack := some piggyBack }])

/-- handlePbk from swim.go. The parameter is *pb.PiggyBack: on a nil
pointer, `switch piggyBack.Type` dereferences nil and the process panics
(modelled as Except.error). Otherwise the switch has only comments in
every case body, `hasChanged` is initialized to false and never assigned,
so the Push into the piggyback store is never reached and the state is
returned unchanged. -/
def handlePbk (s : SWIMState) (piggyBack : Option PiggyBack) : Except String SWIMState :=
  match piggyBack with
  | none =>
      Except.error "runtime error: invalid memory address or nil pointer dereference"
  | some pbk =>
      let hasChanged := false
      let _ :=
        match pbk.type with
        | PiggyBackType.Alive => ()
        | PiggyBackType.Confirm => ()
        | PiggyBackType.Suspect => ()
      if hasChanged then
        Except.ok { s with pbkStore := pbk :: s.pbkStore }
      else
        Except.ok s

/-- handle from swim.go: first handlePbk on the message piggyback pointer,
then a type switch on the payload: Ping goes to pingHandler; the Ack,
IndirectPing and default cases are empty. -/
def handle (s : SWIMState) (msg : Message) : Except String (SWIMState × List Effect) :=
  match handlePbk s msg.piggyBack with
  | Except.error e => Except.error e
  | Except.ok s1 =>
      match msg.payload with
      | Payload.ping => Except.ok (pingHandler s1 msg)
      | Payload.ack _ => Except.ok (s1, [])
      | Payload.indirectPing => Except.ok (s1, [])
      | Payload.unknown => Except.ok (s1, [])

/-- Reset on the member map. Modelled from the spec: the MemberMap source
is not in the repository snapshot; the design document specifies Reset as
rebuilding the iteration order of the registry for the next round with
the set of members unchanged. The claims settled here do not depend on
the chosen order, so the order is modelled as kept. -/
def memberMapReset (members : List Member) : List Member :=
  members

/-- One iteration of the body of the failure-detector goroutine loop in
startFailureDetector: take the GetMembers snapshot, probe each member of
the snapshot (`sched m` says which select branch wins inside that probe),
then Reset the member map. -/
def roundOnce (s : SWIMState) (sched : Member → Bool) : SWIMState × List Effect :=
  let members := s.memberMap
  ({ s with memberMap := memberMapReset s.memberMap },
   (members.map (fun m => probe m (sched m))).flatten)

/-- One scheduler step of the failure-detector goroutine loop, given
whether the ShutDown quit signal has already been sent on quitFD. The
loop in the source is an unconditional `for` with no receive from quitFD
and no exit branch, so the step never terminates the loop (never returns
none): it always performs another full round, whatever the quit flag.
The receive `<-s.quitFD` sits after the go statement in
startFailureDetector, outside the loop, and only unblocks that call. -/
def fdLoopStep (quitSignaled : Bool) (s : SWIMState) (sched : Member → Bool) :
    Option (SWIMState × List Effect) :=
  some (roundOnce s sched)

/-- Runs n scheduler steps of the failure-detector loop with a fixed quit
flag; none would mean the loop terminated within the n steps. -/
def fdLoopRun (quitSignaled : Bool) (sched : Member → Bool) :
    SWIMState → Nat → Option SWIMState
  | s, 0 => some s
  | s, n + 1 =>
      match fdLoopStep quitSignaled s sched with
      | none => none
      | some (s1, _) => fdLoopRun quitSignaled sched s1 n

/-- Example configuration used by concrete evaluations below. -/
def cfgEx : Config :=
  { MaxlocalCount := 3, T := 300, AckTimeOut := 100, K := 2,
    BindAddress := "127.0.0.1", BindPort := 11000 }

/-- Example SWIM state with an empty member map and empty stores. -/
def stEx : SWIMState :=
  { config := cfgEx, memberMap := [], priorityPBStore := [], pbkStore := [] }

end Swim

namespace Swim

/-- C1: claim says that when no Ack (direct or relayed) arrives before the
outer probe timer of duration T fires, probe calls MarkSuspect on the
member registry. Evaluating the source at that situation — an Alive
member whose probe ends by the `<-T.C` select branch winning — shows the
probe emits no effect at all: in particular no markSuspect call reaches
the registry, the branch only returns. The claim fails on the code; the
source comment in that branch documents the suspect intent. -/
theorem probe_timer_fires_no_markSuspect :
    probe { addr := "10.0.0.2:8080", status := Status.Alive } true = [] := rfl

/-- C2: claim says New must fail fatally whenever T ≤ AckTimeOut. The
source checks the strict `config.T < config.AckTimeOut`, so at the
boundary T = AckTimeOut = 100 construction proceeds and returns the
built state, although the claim — and the panic message of the source
itself, which demands T strictly longer than the ack time-out — requires
failure there. -/
theorem New_succeeds_at_T_eq_AckTimeOut :
    New { MaxlocalCount := 2, T := 100, AckTimeOut := 100, K := 2,
          BindAddress := "127.0.0.1", BindPort := 11000 } =
      Except.ok { config := { MaxlocalCount := 2, T := 100, AckTimeOut := 100,
                              K := 2, BindAddress := "127.0.0.1", BindPort := 11000 },
                  memberMap := [], priorityPBStore := [], pbkStore := [] } := by
  simp [New]

/-- C3: for every member whose status is Dead, probe returns immediately
with no transport call and no registry call, whichever select branch the
scheduling would have chosen; the effect list is empty, so no message is
sent and no state is changed. -/
theorem probe_dead_no_effects (member : Member) (timerFirst : Bool)
    (h : member.status = Status.Dead) : probe member timerFirst = [] := by
  simp [probe, h]

/-- Witness for C3 at a concrete Dead member. -/
theorem probe_dead_no_effects_witness :
    probe { addr := "10.0.0.9:1", status := Status.Dead } false = [] :=
  probe_dead_no_effects { addr := "10.0.0.9:1", status := Status.Dead } false rfl

/-- C4 counterexample: the claim quantifies over every received Ping, but
a Ping whose piggyback pointer is nil makes handle fault inside handlePbk
(nil dereference in `switch piggyBack.Type`) before pingHandler runs, so
no Ack reply is produced for that message. -/
theorem handle_ping_nil_piggyback_no_ack :
    handle stEx
      { id := "cid-4", address := "10.0.0.5:4000", payload := Payload.ping,
        piggyBack := none } =
      Except.error "runtime error: invalid memory address or nil pointer dereference" := rfl

/-- C4 (amended): for every received message whose payload is a Ping and
whose piggyback field is present, handle replies with exactly one Ack
message sent back to the sender address msg.address, carrying the same
correlation id msg.id and attaching the next record obtained from the
gossip store (the zero record when the store is empty). -/
theorem handle_ping_replies_ack (s : SWIMState) (msg : Message) (pbk : PiggyBack)
    (hpay : msg.payload = Payload.ping) (hpbk : msg.piggyBack = some pbk) :
    handle s msg = Except.ok
      ({ s with priorityPBStore := storeAfterGet s.priorityPBStore },
       [Effect.send msg.address
         { id := msg.id, address := pingHandlerAddress s.config,
           payload := Payload.ack "",
           piggyBack := some (nextStoreRecord s.priorityPBStore) }]) := by
  cases hget : priorityPBStoreGet s.priorityPBStore with
  | error e =>
      simp [handle, handlePbk, hpbk, hpay, pingHandler, nextStoreRecord,
            storeAfterGet, hget]
  | ok r =>
      simp [handle, handlePbk, hpbk, hpay, pingHandler, nextStoreRecord,
            storeAfterGet, hget]

/-- Witness for the amended C4 at a concrete Ping with a present
piggyback and a one-entry gossip store. -/
theorem handle_ping_replies_ack_witness :
    handle
      { config := cfgEx, memberMap := [],
        priorityPBStore := [{ record := { type := PiggyBackType.Suspect,
                                          member := "10.0.0.7:9", incarnation := 2 },
                              remaining := 2 }],
        pbkStore := [] }
      { id := "cid-4w", address := "10.0.0.5:4000", payload := Payload.ping,
        piggyBack := some pbZero } = Except.ok
      ({ config := cfgEx, memberMap := [],
         priorityPBStore := storeAfterGet
           [{ record := { type := PiggyBackType.Suspect,
                          member := "10.0.0.7:9", incarnation := 2 },
              remaining := 2 }],
         pbkStore := [] },
       [Effect.send "10.0.0.5:4000"
         { id := "cid-4w", address := pingHandlerAddress cfgEx,
           payload := Payload.ack "",
           piggyBack := some (nextStoreRecord
             [{ record := { type := PiggyBackType.Suspect,
                            member := "10.0.0.7:9", incarnation := 2 },
                remaining := 2 }]) }]) :=
  handle_ping_replies_ack
    { config := cfgEx, memberMap := [],
      priorityPBStore := [{ record := { type := PiggyBackType.Suspect,
                                        member := "10.0.0.7:9", incarnation := 2 },
                            remaining := 2 }],
      pbkStore := [] }
    { id := "cid-4w", address := "10.0.0.5:4000", payload := Payload.ping,
      piggyBack := some pbZero }
    pbZero rfl rfl

/-- C5: claim says handlePbk applies a carried piggyback record to the
member registry via the Mark/Confirm call chosen by its type and pushes
it into the gossip store when the registry changed. In the source every
switch branch is empty and hasChanged is never assigned, so for every
state and every record — including records that would demand a status
transition — the call performs no registry operation, pushes nothing, and
returns the state unchanged. -/
theorem handlePbk_applies_nothing (s : SWIMState) (pbk : PiggyBack) :
    handlePbk s (some pbk) = Except.ok s := by
  simp [handlePbk]

/-- C6: claim says the round loop terminates when the ShutDown signal is
observed at the top of the next iteration boundary. The goroutine loop of
startFailureDetector contains no receive on quitFD: even with the quit
signal already sent, any number n of further scheduler steps all complete
as full rounds and the loop never terminates; the signal is consumed
outside the loop by the enclosing startFailureDetector call. -/
theorem fd_loop_runs_past_shutdown (s : SWIMState) (sched : Member → Bool)
    (n : Nat) : (fdLoopRun true sched s n).isSome = true := by
  induction n generalizing s with
  | zero => rfl
  | succ n ih => simpa [fdLoopRun, fdLoopStep] using ih (roundOnce s sched).1

/-- C7: claim says a message with an absent (nil) piggyback is handled
safely with the application step skipped. Evaluating handle at a concrete
Ack message with a nil piggyback pointer shows the run faults: handlePbk
dereferences the nil pointer in `switch piggyBack.Type` and the process
panics instead of skipping the step. -/
theorem handle_nil_piggyback_panics :
    handle stEx
      { id := "cid-7", address := "10.0.0.5:4000", payload := Payload.ack "",
        piggyBack := none } =
      Except.error "runtime error: invalid memory address or nil pointer dereference" := rfl

/-- C8: whenever Get on the priority store reports the empty-store
condition, pingHandler still sends the Ack reply — back to the sender,
same correlation id — and proceeds non-fatally with the zero (empty)
piggyback record in place of a store record; the state is unchanged. -/
theorem ping_reply_on_empty_store (s : SWIMState) (msg : Message) (e : String)
    (h : priorityPBStoreGet s.priorityPBStore = Except.error e) :
    pingHandler s msg =
      (s, [Effect.send msg.address
        { id := msg.id, address := pingHandlerAddress s.config,
          payload := Payload.ack "", piggyBack := some pbZero }]) := by
  simp [pingHandler, h]

/-- Witness for C8 at a concrete empty store. -/
theorem ping_reply_on_empty_store_witness :
    pingHandler stEx
      { id := "cid-8", address := "10.0.0.6:5000", payload := Payload.ping,
        piggyBack := some pbZero } =
      (stEx, [Effect.send "10.0.0.6:5000"
        { id := "cid-8", address := pingHandlerAddress stEx.config,
          payload := Payload.ack "", piggyBack := some pbZero }]) :=
  ping_reply_on_empty_store stEx
    { id := "cid-8", address := "10.0.0.6:5000", payload := Payload.ping,
      piggyBack := some pbZero } "EmptyStore" rfl

/-- C9: claim says Join attempts an exchange with each seed and returns a
non-nil aggregated error exactly when no seed succeeds. The source body
is `return nil`: evaluating Join on a seed list where no seed can succeed
(a single unreachable peer, and no exchange is even attempted) returns
the nil error, reporting success. -/
theorem Join_no_error_when_no_seed_succeeds :
    Join ["10.0.0.1:9999"] = none := rfl

/-- C10: claim says every Ack reply carries the local identity
BindAddress:port with the port as decimal text. The source builds the
from-address with the Go conversion string(BindPort), which yields the
single character whose code point is the port number: with BindAddress
127.0.0.1 and BindPort 8080 the Ack reply leaves with from-address
"127.0.0.1:" followed by the character U+1F90, not "127.0.0.1:8080". -/
theorem ack_from_address_not_decimal_port :
    (pingHandler
      { config := { MaxlocalCount := 3, T := 300, AckTimeOut := 100, K := 2,
                    BindAddress := "127.0.0.1", BindPort := 8080 },
        memberMap := [], priorityPBStore := [], pbkStore := [] }
      { id := "cid-10", address := "10.0.0.2:7777", payload := Payload.ping,
        piggyBack := some pbZero }).2 =
      [Effect.send "10.0.0.2:7777"
        { id := "cid-10",
          address := "127.0.0.1:" ++ String.singleton (Char.ofNat 8080),
          payload := Payload.ack "", piggyBack := some pbZero }]
    ∧ pingHandlerAddress
        { MaxlocalCount := 3, T := 300, AckTimeOut := 100, K := 2,
          BindAddress := "127.0.0.1", BindPort := 8080 } ≠
      specLocalIdentity
        { MaxlocalCount := 3, T := 300, AckTimeOut := 100, K := 2,
          BindAddress := "127.0.0.1", BindPort := 8080 } := by
  constructor
  · decide
  · decide

end Swim
